import Mathlib

/-!
Verification of the DAOS 2.6 single-target storage engine core against its
specification.  The development shallowly embeds the relevant C sources
(src/gurt/hlc.c, src/common/dav/memblock.c, src/vos/vos_gc.c,
src/vos/lru_array.c, src/vos/vos_obj.c, and the management client network
configuration) as executable Lean definitions, and proves or refutes the
spec claims about them.  Machine integers are modelled as Nat with explicit
reduction modulo 2 ^ 64 where C overflow can occur.
-/

namespace Hlc

/-- HLC timestamp unit: one nanosecond is 16 HLC ticks (D_HLC_NSEC,
src/gurt/hlc.c line 18). -/
def D_HLC_NSEC : Nat := 16

/-- HLC start time: Unix seconds of 2021-01-01 00:00:00 UTC (D_HLC_START_SEC,
src/gurt/hlc.c line 24). -/
def D_HLC_START_SEC : Nat := 1609459200

/-- Nanoseconds per second (NSEC_PER_SEC, gurt/common.h). -/
def NSEC_PER_SEC : Nat := 1000000000

/-- Mask of the 18 logical bits of an HLC timestamp (D_HLC_MASK = 0x3FFFF,
src/gurt/hlc.c line 27). -/
def D_HLC_MASK : Nat := 0x3FFFF

/-- The modulus of C uint64_t arithmetic. -/
def U64 : Nat := 2 ^ 64

/-- The physical part of an HLC value: hlc AND NOT D_HLC_MASK.  Clearing the
low 18 bits of a 64-bit value equals dividing and re-multiplying by 2 ^ 18. -/
def physOf (hlc : Nat) : Nat := hlc / 2 ^ 18 * 2 ^ 18

/-- One iteration of the compare-and-swap loop body of d_hlc_get
(src/gurt/hlc.c lines 83-86): from the stored clock value hlc and the local
physical time pt (the value d_hlc_localtime_get returned, whose low 18 bits
are cleared), the new clock value is
ret = ((hlc AND NOT D_HLC_MASK) < pt) ? pt : hlc + 1
in uint64 arithmetic.  In the uncontended case this value is stored into the
global clock by the compare-and-swap and returned to the caller. -/
def d_hlc_get_step (hlc pt : Nat) : Nat :=
  if physOf hlc < pt then pt else (hlc + 1) % U64

/-- d_hlc2nsec (src/gurt/hlc.c lines 122-125). -/
def d_hlc2nsec (hlc : Nat) : Nat := hlc / D_HLC_NSEC

/-- d_nsec2hlc (src/gurt/hlc.c lines 127-130); the multiplication is done in
uint64 arithmetic. -/
def d_nsec2hlc (nsec : Nat) : Nat := nsec * D_HLC_NSEC % U64

/-- struct timespec as used by hlc.c: tv_sec is a time_t and tv_nsec a long,
both signed 64-bit integers. -/
structure Timespec where
  tv_sec : Int
  tv_nsec : Int
deriving DecidableEq, Repr

/-- Conversion of a signed 64-bit C value to uint64, as performed by the
usual arithmetic conversions when it meets an unsigned long long operand. -/
def toU64 (i : Int) : Nat := (i % (2 ^ 64 : Int)).toNat

/-- d_timespec2hlc (src/gurt/hlc.c lines 150-160), non-null output pointer
path: nsec = (ts.tv_sec - D_HLC_START_SEC) * NSEC_PER_SEC + ts.tv_nsec
computed in uint64 arithmetic, then converted by d_nsec2hlc. -/
def d_timespec2hlc (ts : Timespec) : Nat :=
  let sec := (toU64 ts.tv_sec + U64 - D_HLC_START_SEC) % U64
  let nsec := (sec * NSEC_PER_SEC + toU64 ts.tv_nsec) % U64
  d_nsec2hlc nsec

/-- d_hlc2timespec (src/gurt/hlc.c lines 137-148), non-null output pointer
path: nsec = d_hlc2nsec hlc; tv_sec = nsec / NSEC_PER_SEC + D_HLC_START_SEC;
tv_nsec = nsec % NSEC_PER_SEC.  Both stores fit in the signed 64-bit fields
because hlc / 16 / 10^9 + 1609459200 is far below 2 ^ 63. -/
def d_hlc2timespec (hlc : Nat) : Timespec :=
  let nsec := d_hlc2nsec hlc
  { tv_sec := ((nsec / NSEC_PER_SEC + D_HLC_START_SEC : Nat) : Int)
    tv_nsec := ((nsec % NSEC_PER_SEC : Nat) : Int) }

theorem toU64_ofNat (S : Nat) (h : S < 2 ^ 64) : toU64 (S : Int) = S := by
  unfold toU64
  omega

/-- C3: the value computed by one d_hlc_get step is strictly greater than
the stored clock value read at the start of the step; when the physical time
exceeds the stored physical part it is adopted, otherwise the stored value
is incremented by one.  Successive uncontended calls therefore return
strictly increasing, pairwise distinct values.  The hypotheses state that
pt is a masked physical time as produced by d_hlc_localtime_get, and that
the 64-bit clock is not at its terminal value 2^64 - 1 (reached only after
the year 2057). -/
theorem d_hlc_get_monotone (hlc pt : Nat) (hmask : pt % 2 ^ 18 = 0)
    (_hpt : pt < U64) (hno : hlc + 1 < U64) :
    hlc < d_hlc_get_step hlc pt ∧
      d_hlc_get_step hlc pt = if physOf hlc < pt then pt else hlc + 1 := by
  unfold d_hlc_get_step physOf at *
  unfold U64 at *
  constructor
  · split <;> omega
  · split <;> omega

/-- Witness for d_hlc_get_monotone at hlc = 3, pt = 2 ^ 18. -/
theorem d_hlc_get_monotone_witness :
    3 < d_hlc_get_step 3 (2 ^ 18) ∧
      d_hlc_get_step 3 (2 ^ 18) = if physOf 3 < 2 ^ 18 then 2 ^ 18 else 3 + 1 :=
  d_hlc_get_monotone 3 (2 ^ 18) (by decide) (by decide) (by decide)

/-- C7 counterexample: the timespec/HLC conversion does not round-trip for
every timespec.  At ts = (0, 0) (Unix epoch, before the 2021 HLC start time)
the uint64 subtraction in d_timespec2hlc wraps around and the round trip
returns a different timespec. -/
theorem timespec_roundtrip_fails_at_epoch :
    d_hlc2timespec (d_timespec2hlc ⟨0, 0⟩) ≠ (⟨0, 0⟩ : Timespec) := by
  decide

/-- C7 amended: the round trip d_hlc2timespec (d_timespec2hlc ts) = ts holds
for every timespec at or after the HLC start time whose nanosecond field is
normalised (0 ≤ tv_nsec < 10^9) and whose distance from the start time keeps
the HLC value inside 64 bits (below 2^60 nanoseconds past 2021-01-01, i.e.
until the year 2057). -/
theorem timespec_roundtrip (ts : Timespec)
    (h1 : (D_HLC_START_SEC : Int) ≤ ts.tv_sec) (h2 : 0 ≤ ts.tv_nsec)
    (h3 : ts.tv_nsec < (NSEC_PER_SEC : Int))
    (h4 : (ts.tv_sec - (D_HLC_START_SEC : Int)) * (NSEC_PER_SEC : Int) +
        ts.tv_nsec < 2 ^ 60) :
    d_hlc2timespec (d_timespec2hlc ts) = ts := by
  obtain ⟨s, n⟩ := ts
  simp only [D_HLC_START_SEC, NSEC_PER_SEC] at h1 h2 h3 h4 ⊢
  obtain ⟨S, rfl⟩ : ∃ S : Nat, s = (S : Int) :=
    ⟨s.toNat, by omega⟩
  obtain ⟨N, rfl⟩ : ∃ N : Nat, n = (N : Int) :=
    ⟨n.toNat, by omega⟩
  have hS : 1609459200 ≤ S := by exact_mod_cast h1
  have hN : N < 1000000000 := by exact_mod_cast h3
  have hSmall : (S - 1609459200) * 1000000000 + N < 2 ^ 60 := by
    have : ((S : Int) - 1609459200) * 1000000000 + N < 2 ^ 60 := h4
    omega
  have hS64 : S < 2 ^ 64 := by omega
  have hN64 : N < 2 ^ 64 := by omega
  unfold d_hlc2timespec d_timespec2hlc d_hlc2nsec d_nsec2hlc
  unfold D_HLC_START_SEC NSEC_PER_SEC D_HLC_NSEC U64
  rw [toU64_ofNat S hS64, toU64_ofNat N hN64]
  have e1 : (S + 2 ^ 64 - 1609459200) % 2 ^ 64 = S - 1609459200 := by omega
  have e2 : ((S - 1609459200) * 1000000000 + N) % 2 ^ 64 =
      (S - 1609459200) * 1000000000 + N := by omega
  have e3 : ((S - 1609459200) * 1000000000 + N) * 16 % 2 ^ 64 =
      ((S - 1609459200) * 1000000000 + N) * 16 := by omega
  have e4 : ((S - 1609459200) * 1000000000 + N) * 16 / 16 =
      (S - 1609459200) * 1000000000 + N := by omega
  have e5 : ((S - 1609459200) * 1000000000 + N) / 1000000000 + 1609459200 = S := by
    omega
  have e6 : ((S - 1609459200) * 1000000000 + N) % 1000000000 = N := by
    omega
  simp only [e1, e2, e3, e4, e5, e6]

/-- Witness for timespec_roundtrip at ts = (1609459200, 5). -/
theorem timespec_roundtrip_witness :
    d_hlc2timespec (d_timespec2hlc ⟨1609459200, 5⟩) = (⟨1609459200, 5⟩ : Timespec) :=
  timespec_roundtrip ⟨1609459200, 5⟩ (by decide) (by decide) (by decide) (by decide)

end Hlc

namespace Dav

/-- Chunk type values of the zone chunk headers (spec section 6:
free = 0, used = 1, run = 2, run_data = 3, footer = 4; the enum itself lives
in the dav heap layout header, outside src/common/dav/memblock.c). -/
def CHUNK_TYPE_FREE : Nat := 0

def CHUNK_TYPE_USED : Nat := 1

def CHUNK_TYPE_RUN : Nat := 2

def CHUNK_TYPE_RUN_DATA : Nat := 3

def CHUNK_TYPE_FOOTER : Nat := 4

/-- struct chunk_header: type(8 bits) | flags(16 bits) | size_idx(32 bits).
The 64-bit packed representation used for redo logging is modelled by the
structure value itself. -/
structure ChunkHeader where
  ctype : Nat
  flags : Nat
  size_idx : Nat
deriving DecidableEq, Repr

/-- chunk_get_chunk_hdr_value (src/common/dav/memblock.c lines 656-670):
builds the header value that would be memcpy-ed into a uint64. -/
def chunk_get_chunk_hdr_value (ctype flags size_idx : Nat) : ChunkHeader :=
  { ctype := ctype, flags := flags, size_idx := size_idx }

/-- enum memblock_state values relevant to huge_prep_operation_hdr. -/
inductive MemblockOp where
  | allocated
  | freed
deriving DecidableEq, Repr

/-- One entry of the operation context produced by huge_prep_operation_hdr:
a SET of a chunk-header slot to a value.  transient = true models
operation_add_typed_entry with LOG_TRANSIENT (not redo-logged); transient =
false models operation_add_entry (persistent redo log entry).  The ctx = NULL
branch stores the same values directly in the same order. -/
structure LogEntry where
  slot : Nat
  value : ChunkHeader
  transient : Bool
deriving DecidableEq, Repr

/-- Applies a list of SET entries, in order, to the chunk-header array
(modelled as a total map from slot index to header). -/
def applyLog (hdrs : Nat → ChunkHeader) : List LogEntry → (Nat → ChunkHeader)
  | [] => hdrs
  | e :: rest => applyLog (fun i => if i = e.slot then e.value else hdrs i) rest

/-- huge_prep_operation_hdr (src/common/dav/memblock.c lines 676-732) as the
ordered list of header stores it performs for a memory block of size_idx n
whose header sits at chunk slot k: first the persistent update of the header
itself (type USED on allocation, FREE on free, flags preserved), then - only
when n is not 1, and emitted strictly after the persistent entry - the
transient store of the footer header at slot k + n - 1 with type footer,
flags 0 and the same size_idx. -/
def huge_prep_operation_hdr (hdrs : Nat → ChunkHeader) (k n : Nat)
    (op : MemblockOp) : List LogEntry :=
  let val := chunk_get_chunk_hdr_value
    (match op with
      | .allocated => CHUNK_TYPE_USED
      | .freed => CHUNK_TYPE_FREE)
    (hdrs k).flags n
  if n = 1 then [⟨k, val, false⟩]
  else [⟨k, val, false⟩,
        ⟨k + n - 1, chunk_get_chunk_hdr_value CHUNK_TYPE_FOOTER 0 n, true⟩]

/-- huge_write_footer (src/common/dav/memblock.c lines 1252-1267): writes the
footer header at slot k + size_idx - 1 as a copy of the header at slot k with
type forced to footer and size_idx forced to size_idx; a no-op when
size_idx = 1.  The store is not persisted: footers are recreated at boot. -/
def huge_write_footer (hdrs : Nat → ChunkHeader) (k size_idx : Nat) :
    Nat → ChunkHeader :=
  if size_idx = 1 then hdrs
  else fun i =>
    if i = k + size_idx - 1 then
      { hdrs k with ctype := CHUNK_TYPE_FOOTER, size_idx := size_idx }
    else hdrs i

/-- huge_reinit_chunk (src/common/dav/memblock.c lines 1272-1279): on the
first zone traversal at heap boot, the footer of every used huge chunk is
rebuilt from its header. -/
def huge_reinit_chunk (hdrs : Nat → ChunkHeader) (k : Nat) :
    Nat → ChunkHeader :=
  if (hdrs k).ctype = CHUNK_TYPE_USED then
    huge_write_footer hdrs k (hdrs k).size_idx
  else hdrs

/-- C2: allocating a huge block of n chunks (n >= 2) with its header at slot
k (1) leaves the header at slot k with type used and size_idx n and the
chunk header at slot k + n - 1 with type footer and the same size_idx n;
(2) the operation consists of exactly the persistent header entry followed
by the footer entry, so the footer is written only after the persistent
header update, and the footer entry is transient (not redo-logged);
(3) at heap boot, reinitialising any used chunk header of size_idx n
recreates the same footer at slot k + n - 1. -/
theorem huge_footer_invariant (hdrs : Nat → ChunkHeader) (k n : Nat)
    (hn : 2 ≤ n) :
    (applyLog hdrs (huge_prep_operation_hdr hdrs k n .allocated) k =
        ⟨CHUNK_TYPE_USED, (hdrs k).flags, n⟩) ∧
    (applyLog hdrs (huge_prep_operation_hdr hdrs k n .allocated) (k + n - 1) =
        ⟨CHUNK_TYPE_FOOTER, 0, n⟩) ∧
    (huge_prep_operation_hdr hdrs k n .allocated =
        [⟨k, ⟨CHUNK_TYPE_USED, (hdrs k).flags, n⟩, false⟩,
         ⟨k + n - 1, ⟨CHUNK_TYPE_FOOTER, 0, n⟩, true⟩]) ∧
    (∀ hdrs2 : Nat → ChunkHeader, (hdrs2 k).ctype = CHUNK_TYPE_USED →
        (hdrs2 k).size_idx = n →
        (huge_reinit_chunk hdrs2 k (k + n - 1)).ctype = CHUNK_TYPE_FOOTER ∧
        (huge_reinit_chunk hdrs2 k (k + n - 1)).size_idx = n) := by
  have hne : ¬(n = 1) := by omega
  have hslot : ¬(k = k + n - 1) := by omega
  refine ⟨?_, ?_, ?_, ?_⟩
  · simp [huge_prep_operation_hdr, applyLog, chunk_get_chunk_hdr_value, hne,
      hslot]
  · simp [huge_prep_operation_hdr, applyLog, chunk_get_chunk_hdr_value, hne]
  · simp [huge_prep_operation_hdr, chunk_get_chunk_hdr_value, hne]
  · intro hdrs2 htype hsize
    have hne2 : ¬((hdrs2 k).size_idx = 1) := by omega
    unfold huge_reinit_chunk huge_write_footer
    simp [htype, hsize, hne, hne2]

/-- Witness for huge_footer_invariant: the all-zero header array, k = 0,
n = 2; only the footer-shape part of the conjunction is re-stated. -/
theorem huge_footer_invariant_witness :
    applyLog (fun _ => ⟨0, 0, 0⟩)
        (huge_prep_operation_hdr (fun _ => ⟨0, 0, 0⟩) 0 2 .allocated) 1 =
      ⟨CHUNK_TYPE_FOOTER, 0, 2⟩ :=
  (huge_footer_invariant (fun _ => ⟨0, 0, 0⟩) 0 2 (by decide)).2.1

/-- Chunk size in bytes (spec sections 3 and 6: 256 KiB chunks). -/
def CHUNKSIZE : Nat := 262144

/-- Bits per bitmap value: the bitmap is an array of uint64 words. -/
def RUN_BITS_PER_VALUE : Nat := 64

/-- Size of struct chunk_run_header (two uint64 fields block_size and
alignment), as documented in the source comments of memblock.c. -/
def RUN_BASE_METADATA_SIZE : Nat := 16

/-- RUN_BASE_METADATA_SIZE in units of bitmap values. -/
def RUN_BASE_METADATA_VALUES : Nat := 2

/-- Cacheline size assumed by the flexible-bitmap layout. -/
def CACHELINE_SIZE : Nat := 64

/-- util_div_ceil: ceiling division. -/
def util_div_ceil (a b : Nat) : Nat := (a + b - 1) / b

/-- ALIGN_UP for a power-of-two alignment, written with division (equal to
the C mask form for power-of-two alignments). -/
def ALIGN_UP (x a : Nat) : Nat := (x + a - 1) / a * a

/-- RUN_CONTENT_SIZE_BYTES: bytes of a run after the run base metadata. -/
def RUN_CONTENT_SIZE_BYTES (size_idx : Nat) : Nat :=
  CHUNKSIZE * size_idx - RUN_BASE_METADATA_SIZE

/-- struct run_bitmap, the fields computed by memblock_run_bitmap. -/
structure RunBitmap where
  nbits : Nat
  nvalues : Nat
  size : Nat
deriving DecidableEq, Repr

/-- memblock_run_bitmap, flexible-bitmap branch (src/common/dav/memblock.c
lines 448-521; the CHUNK_FLAG_FLEX_BITMAP path, which is the default for
classes registered by this repository per the source comments): the number
of values is sized so that run data starts cacheline-aligned, then nbits is
recomputed accounting for the bitmap bytes and wholly-unused trailing values
are dropped from nvalues (size keeps the padding).  The constants 64
(RUN_BITS_PER_VALUE), 2 (RUN_BASE_METADATA_VALUES) and 8
(CACHELINE_SIZE / sizeof(uint64)) are written as numerals. -/
def memblock_run_bitmap_flex (size_idx unit_size alignment : Nat) : RunBitmap :=
  let content_size := RUN_CONTENT_SIZE_BYTES size_idx
  let nbits0 := content_size / unit_size
  let nvalues0 := util_div_ceil nbits0 64
  let nvalues1 := ALIGN_UP (nvalues0 + 2) 8 - 2
  let size := nvalues1 * 8
  let nbits := (content_size - size) / unit_size -
    (if alignment ≠ 0 then 1 else 0)
  let unused_values := (nvalues1 * 64 - nbits) / 64
  { nbits := nbits, nvalues := nvalues1 - unused_values, size := size }

/-- The bitmap contents established by memblock_run_init
(src/common/dav/memblock.c lines 1486-1497) as a predicate on bit position i:
first all b.size bytes are set to 0xFF, then the first nvalues - 1 values are
zeroed, then values[nvalues - 1] is set to UINT64_MAX shifted left by
nbits % 64 (bit j of that word is set iff j >= nbits % 64, and when
nbits % 64 = 0 the whole word is set). -/
def memblock_run_init_bit (b : RunBitmap) (i : Nat) : Bool :=
  if i < (b.nvalues - 1) * 64 then false
  else if i < b.nvalues * 64 then
    (if b.nbits % 64 ≤ i % 64 then true else false)
  else true

theorem run_bitmap_flex_bounds (size_idx unit_size alignment : Nat) :
    (memblock_run_bitmap_flex size_idx unit_size alignment).nbits ≤
      (memblock_run_bitmap_flex size_idx unit_size alignment).nvalues * 64 ∧
    (memblock_run_bitmap_flex size_idx unit_size alignment).nvalues * 64 <
      (memblock_run_bitmap_flex size_idx unit_size alignment).nbits + 64 := by
  unfold memblock_run_bitmap_flex util_div_ceil ALIGN_UP
  unfold RUN_CONTENT_SIZE_BYTES CHUNKSIZE RUN_BASE_METADATA_SIZE
  dsimp only
  generalize hq0 : (262144 * size_idx - 16) / unit_size = q0
  have h1 : (262144 * size_idx - 16 -
        (((q0 + 64 - 1) / 64 + 2 + 8 - 1) / 8 * 8 - 2) * 8) / unit_size ≤
      q0 := hq0 ▸ Nat.div_le_div_right (Nat.sub_le _ _)
  generalize hq1 : (262144 * size_idx - 16 -
      (((q0 + 64 - 1) / 64 + 2 + 8 - 1) / 8 * 8 - 2) * 8) / unit_size =
    q1 at h1 ⊢
  omega

/-- C4 counterexample: the claim fails when nbits is a multiple of 64.  For
a one-chunk flexible-bitmap run of unit size 4094 the computed bitmap has
nbits = 64, and memblock_run_init then writes UINT64_MAX shifted by
64 % 64 = 0 into the last (and only) value, so bit 0 - a usable bit below
nbits - ends up set to one. -/
theorem run_bitmap_counterexample :
    (memblock_run_bitmap_flex 1 4094 0).nbits = 64 ∧
      0 < (memblock_run_bitmap_flex 1 4094 0).nbits ∧
      memblock_run_init_bit (memblock_run_bitmap_flex 1 4094 0) 0 = true := by
  decide

/-- C4 amended: after memblock_run_init initialises a run from a
flexible-bitmap descriptor whose nbits is NOT a multiple of 64, every bitmap
bit at position below nbits is clear and every bit at position at or above
nbits (the unused trailing bits and padding) is set to one.  When nbits is a
multiple of 64 the store of UINT64_MAX shifted by nbits % 64 = 0 also sets
the last 64 usable bits. -/
theorem memblock_run_init_bitmap (size_idx unit_size alignment : Nat)
    (htr : (memblock_run_bitmap_flex size_idx unit_size alignment).nbits %
      64 ≠ 0) :
    (∀ i, i < (memblock_run_bitmap_flex size_idx unit_size alignment).nbits →
      memblock_run_init_bit
        (memblock_run_bitmap_flex size_idx unit_size alignment) i = false) ∧
    (∀ i, (memblock_run_bitmap_flex size_idx unit_size alignment).nbits ≤ i →
      memblock_run_init_bit
        (memblock_run_bitmap_flex size_idx unit_size alignment) i = true) := by
  obtain ⟨h1, h2⟩ := run_bitmap_flex_bounds size_idx unit_size alignment
  constructor <;> intro i hi <;> unfold memblock_run_init_bit <;>
    split_ifs <;> first | rfl | (exfalso; omega)

/-- Witness for memblock_run_init_bitmap at a one-chunk run of unit size 32:
the computed nbits is 8158 (not a multiple of 64); bit 0 is clear and bit
8158 is set. -/
theorem memblock_run_init_bitmap_witness :
    memblock_run_init_bit (memblock_run_bitmap_flex 1 32 0) 0 = false ∧
      memblock_run_init_bit (memblock_run_bitmap_flex 1 32 0) 8158 = true :=
  ⟨(memblock_run_init_bitmap 1 32 0 (by decide)).1 0 (by decide),
   (memblock_run_init_bitmap 1 32 0 (by decide)).2 8158 (by decide)⟩

end Dav

namespace Gc

/-- enum vos_gc_type: the four GC tiers (GC_AKEY, GC_DKEY, GC_OBJ, GC_CONT);
the GC_MAX sentinel entry of the table is not part of the tier model. -/
inductive GcType where
  | akey
  | dkey
  | obj
  | cont
deriving DecidableEq, Repr

/-- The fields of struct vos_gc relevant to draining: the tier name, the
default drain credits (zero means the drain consumes user credits), and
whether the gc_drain / gc_free callbacks are non-null. -/
structure VosGc where
  gc_name : String
  gc_drain_creds : Nat
  has_drain : Bool
  has_free : Bool
deriving DecidableEq, Repr

/-- gc_table (src/vos/vos_gc.c lines 320-354): akey consumes user credits
(gc_drain_creds = 0), dkey drains with 32 internal credits, object with 8,
container with 1. -/
def gc_table : GcType → VosGc
  | .akey => ⟨"akey", 0, true, false⟩
  | .dkey => ⟨"dkey", 32, true, true⟩
  | .obj => ⟨"object", 8, true, false⟩
  | .cont => ⟨"container", 1, true, true⟩

/-- gc_drain_item (src/vos/vos_gc.c lines 519-557), with the tier's
gc_drain callback abstracted as a function from the credits it is given to
the credits it leaves unconsumed.  Returns the pair (credits handed to the
drain callback, caller credits after the call): an akey drain receives the
caller's credits and writes the remaining credits back to the caller; every
other tier receives its fixed internal budget gc_drain_creds and leaves the
caller's credits untouched. -/
def gc_drain_item (t : GcType) (drain : Nat → Nat) (credits : Nat) :
    Nat × Nat :=
  let creds := if t = .akey then credits else (gc_table t).gc_drain_creds
  let remaining := drain creds
  (creds, if t = .akey then remaining else credits)

/-- C5: the garbage collector's four tiers have decreasing per-drain credit
budgets 0 (= consume caller credits), 32, 8, 1 for akey, dkey, object and
container; an akey drain receives exactly the caller's credits and consumes
them (the caller is left with what the drain callback did not use), while a
drain of any other tier receives its fixed internal budget and leaves the
caller's credits unchanged. -/
theorem gc_tier_credits :
    (gc_table .akey).gc_drain_creds = 0 ∧
    (gc_table .dkey).gc_drain_creds = 32 ∧
    (gc_table .obj).gc_drain_creds = 8 ∧
    (gc_table .cont).gc_drain_creds = 1 ∧
    (∀ drain credits, (gc_drain_item .akey drain credits).1 = credits) ∧
    (∀ drain credits, (∀ c, drain c ≤ c) →
      (gc_drain_item .akey drain credits).2 ≤ credits) ∧
    (∀ t, t ≠ GcType.akey → ∀ drain credits,
      (gc_drain_item t drain credits).1 = (gc_table t).gc_drain_creds ∧
      (gc_drain_item t drain credits).2 = credits) := by
  refine ⟨rfl, rfl, rfl, rfl, fun drain credits => rfl,
    fun drain credits h => ?_, fun t ht drain credits => ?_⟩
  · simpa [gc_drain_item] using h credits
  · have : ¬(t = GcType.akey) := ht
    simp [gc_drain_item, this]

/-- Witness for gc_tier_credits: a dkey drain with a callback that uses
everything leaves the caller's 5 credits unchanged, and an akey drain with
the same callback consumes them. -/
theorem gc_tier_credits_witness :
    (gc_drain_item .dkey (fun _ => 0) 5).2 = 5 ∧
      (gc_drain_item .akey (fun _ => 0) 5).2 ≤ 5 :=
  ⟨(gc_tier_credits.2.2.2.2.2.2 .dkey (by decide) (fun _ => 0) 5).2,
   gc_tier_credits.2.2.2.2.2.1 (fun _ => 0) 5 (fun c => Nat.zero_le c)⟩

/-- gc_bag_size (src/vos/vos_gc.c line 32).  The comment above it documents
the intended default: a bag of 250 items, 64-byte header, 16 bytes per item,
totalling at most 4 KiB; the initialiser however reads 250 + 3 * 256. -/
def gc_bag_size : Nat := 250 + 3 * 256

/-- struct vos_gc_bin_df: first/last bag offsets (none = UMOFF_NULL), the
per-bag item capacity, and the number of chained bags. -/
structure GcBinDf where
  bin_bag_first : Option Nat
  bin_bag_last : Option Nat
  bin_bag_size : Nat
  bin_bag_nr : Nat
deriving DecidableEq, Repr

/-- Bytes of a garbage bag holding nitems items:
offsetof(struct vos_gc_bag_df, bag_items[nitems]) with the 64-byte bag
header and 16-byte items documented in the source comment. -/
def gc_bag_bytes (nitems : Nat) : Nat := 64 + 16 * nitems

/-- gc_init_pool (src/vos/vos_gc.c lines 845-874): every pool-level bin gets
one freshly allocated bag and bin_bag_size = gc_bag_size. -/
def gc_init_pool_bin (bag_id : Nat) : GcBinDf :=
  { bin_bag_first := some bag_id
    bin_bag_last := some bag_id
    bin_bag_size := gc_bag_size
    bin_bag_nr := 1 }

/-- gc_init_cont (src/vos/vos_gc.c lines 882-899): every container-level bin
starts empty with bin_bag_size = gc_bag_size. -/
def gc_init_cont_bin : GcBinDf :=
  { bin_bag_first := none
    bin_bag_last := none
    bin_bag_size := gc_bag_size
    bin_bag_nr := 0 }

/-- C8: evaluation of the code at its initialisation path.  gc_bag_size is
250 + 3 * 256 = 1018, not the 250 documented in the comment directly above
it; pool and container bins are initialised with that capacity, and a bag of
1018 items occupies 16,352 bytes, far above the documented 4 KiB bound,
whereas a bag of 250 items would fit (4,064 bytes). -/
theorem gc_bag_size_evaluation :
    gc_bag_size = 1018 ∧
    gc_bag_size ≠ 250 ∧
    (gc_init_pool_bin 7).bin_bag_size = 1018 ∧
    gc_init_cont_bin.bin_bag_size = 1018 ∧
    4096 < gc_bag_bytes gc_bag_size ∧
    gc_bag_bytes 250 ≤ 4096 := by
  decide

/-- One queued garbage item (struct vos_gc_item). -/
structure GcItem where
  it_addr : Nat
  it_args : Nat
deriving DecidableEq, Repr

/-- The pool state touched by gc_add_item: the dying flag, the pool-level
garbage bins (each abstracted as the sequence of items in its chained bags),
and whether the pool is registered on the GC pool list (gc_have_pool). -/
structure GcPoolState where
  vp_dying : Bool
  pd_gc_bins : GcType → List GcItem
  vp_gc_registered : Bool

/-- The container state touched by gc_add_item: the container-level bins and
whether the container is queued on the pool's vp_gc_cont list. -/
structure GcContState where
  cd_gc_bins : GcType → List GcItem
  vc_gc_queued : Bool

/-- gc_add_item (src/vos/vos_gc.c lines 631-663): if the pool is dying the
call returns 0 immediately, touching nothing.  Otherwise the item is
appended to the container bin when a container handle is given (to the pool
bin otherwise), the pool is registered for GC if it was not, and the
container is queued on the pool's GC list.  The error paths of
gc_bin_add_item (bag allocation failure, transaction failure) are not
modelled; the claim under check only concerns the dying path. -/
def gc_add_item (pool : GcPoolState) (cont : Option GcContState)
    (t : GcType) (off args : Nat) :
    Int × GcPoolState × Option GcContState :=
  if pool.vp_dying then (0, pool, cont)
  else
    let item : GcItem := ⟨off, args⟩
    match cont with
    | none =>
      (0,
       { pool with
          pd_gc_bins := fun ty =>
            if ty = t then pool.pd_gc_bins ty ++ [item]
            else pool.pd_gc_bins ty
          vp_gc_registered := true },
       none)
    | some c =>
      (0,
       { pool with vp_gc_registered := true },
       some { c with
               cd_gc_bins := fun ty =>
                 if ty = t then c.cd_gc_bins ty ++ [item]
                 else c.cd_gc_bins ty
               vc_gc_queued := true })

/-- C10: adding a garbage item to a dying pool silently succeeds: the call
returns 0 and neither the pool state (bins, GC registration) nor the
container state is modified. -/
theorem gc_add_item_dying (pool : GcPoolState) (cont : Option GcContState)
    (t : GcType) (off args : Nat) (h : pool.vp_dying = true) :
    gc_add_item pool cont t off args = (0, pool, cont) := by
  unfold gc_add_item
  simp [h]

/-- Witness for gc_add_item_dying on a concrete dying pool. -/
theorem gc_add_item_dying_witness :
    gc_add_item ⟨true, fun _ => [], false⟩ none .akey 42 7 =
      (0, ⟨true, fun _ => [], false⟩, none) :=
  gc_add_item_dying ⟨true, fun _ => [], false⟩ none .akey 42 7 rfl

end Gc

namespace Lru

/-- Numeric value of the gurt errno DER_BUSY (d_errno.h lives outside src;
the claims depend only on its identity). -/
def DER_BUSY : Int := 1012

/-- LRU_FLAG_EVICT_MANUAL = 1 from the flags enum of common/lru_array.h:
no automatic eviction of the LRU; set automatically for arrays with
multiple sub-arrays. -/
def LRU_FLAG_EVICT_MANUAL : Nat := 1

/-- LRU_FLAG_REUSE_UNIQUE = 2 from the flags enum of common/lru_array.h:
freed entries go to the tail of the free list to avoid frequent reuse. -/
def LRU_FLAG_REUSE_UNIQUE : Nat := 2

/-- The flags adjustment of lrua_array_alloc (src/vos/lru_array.c lines
400-405): with more than one sub-array no automatic eviction is possible,
so LRU_FLAG_EVICT_MANUAL is forced on. -/
def lrua_array_alloc_flags (nr_arrays flags : Nat) : Nat :=
  if nr_arrays ≠ 1 then flags ||| LRU_FLAG_EVICT_MANUAL else flags

/-- One sub-array of an LRU array (struct lru_sub, common/lru_array.h):
the free ring as the list of entry indices starting at ls_free (the empty
list is ls_free = LRU_NO_IDX), the lru ring as the list of entry indices
starting at ls_lru (coldest first, MRU last), the per-entry le_key values,
and whether ls_table has been allocated. -/
structure LruSub where
  ls_free : List Nat
  ls_lru : List Nat
  le_key : Nat → Nat
  allocated : Bool

/-- The LRU array state used by lrua_find_free (struct lru_array,
common/lru_array.h): the LRU_FLAG_EVICT_MANUAL bit of la_flags, the
la_free_sub and la_unused_sub lists (holding sub-array indices), and the
sub-arrays. -/
structure LruArray where
  manualEvict : Bool
  la_free_sub : List Nat
  la_unused_sub : List Nat
  subs : Nat → LruSub

/-- sub_find_free (src/vos/lru_array.c lines 188-220).  When the sub-array's
free ring is empty (ls_free = LRU_NO_IDX, lines 196-197) it fails without
modifying anything.  Otherwise it takes the ring head e and, per
lrua_remove_entry (common/lru_array.h), advances the ring head - and, when
the free ring thereby becomes empty under LRU_FLAG_EVICT_MANUAL, removes the
sub-array from la_free_sub; then per lrua_insert with append = true
(common/lru_array.h) inserts e at the MRU end of the lru ring, and stamps
the caller's key on it.  The returned index stands for ent2idx(array, sub,
e); the sub-local entry index represents it since la_array_shift is not part
of the model. -/
def sub_find_free (a : LruArray) (s : Nat) (key : Nat) :
    Option (LruArray × Nat) :=
  match (a.subs s).ls_free with
  | [] => none
  | e :: rest =>
    let sub := a.subs s
    let sub' : LruSub :=
      { sub with
          ls_free := rest
          ls_lru := sub.ls_lru ++ [e]
          le_key := fun i => if i = e then key else sub.le_key i }
    let freeSubs :=
      if rest.isEmpty ∧ a.manualEvict then a.la_free_sub.erase s
      else a.la_free_sub
    some ({ a with
             la_free_sub := freeSubs
             subs := fun i => if i = s then sub' else a.subs i }, e)

/-- lrua_array_alloc_one (src/vos/lru_array.c lines 144-186) restricted to
the state fields of the model: the sub-array moves from la_unused_sub to the
head of la_free_sub, its table is allocated (zeroed, so all keys are 0) and
all nr_ents entries are linked on the free ring in index order. -/
def lrua_array_alloc_one (a : LruArray) (s : Nat) (nr_ents : Nat) : LruArray :=
  { a with
      la_unused_sub := a.la_unused_sub.erase s
      la_free_sub := s :: a.la_free_sub
      subs := fun i =>
        if i = s then
          { ls_free := List.range nr_ents
            ls_lru := []
            le_key := fun _ => 0
            allocated := true }
        else a.subs i }

/-- The la_free_sub traversal of manual_find_free (src/vos/lru_array.c
lines 237-240): try sub_find_free on each listed sub-array in order; a
failed try leaves the state untouched, so the same state a is probed
throughout. -/
def manual_find_free_loop (a : LruArray) (key : Nat) :
    List Nat → Option (LruArray × Nat)
  | [] => none
  | s :: ss =>
    match sub_find_free a s key with
    | some r => some r
    | none => manual_find_free_loop a key ss

/-- manual_find_free (src/vos/lru_array.c lines 222-257): search the
sub-arrays on la_free_sub for a free entry; if none has one and no
unallocated sub-array remains, return -DER_BUSY without touching any state;
otherwise allocate the first unused sub-array and claim an entry from it
(the D_ASSERT(found) case; the impossible not-found fallback is mapped to
no entry).  The result is (rc, array state, claimed entry), mirroring the C
return value and out-parameters. -/
def manual_find_free (a : LruArray) (key : Nat) (nr_ents : Nat) :
    Int × LruArray × Option Nat :=
  match manual_find_free_loop a key a.la_free_sub with
  | some (a', e) => (0, a', some e)
  | none =>
    match a.la_unused_sub with
    | [] => (-DER_BUSY, a, none)
    | s :: _ =>
      let a1 := lrua_array_alloc_one a s nr_ents
      match sub_find_free a1 s key with
      | some (a', e) => (0, a', some e)
      | none => (0, a1, none)

/-- lrua_find_free (src/vos/lru_array.c lines 259-299): the manual-eviction
branch delegates to manual_find_free; the auto-eviction branch (single
sub-array) claims a free entry from sub-array 0 or silently evicts the
coldest lru entry, re-keys it and advances ls_lru.  An empty lru ring in
the eviction path is unreachable in C (the code indexes ls_table[ls_lru]
unconditionally); it is mapped to no entry. -/
def lrua_find_free (a : LruArray) (key : Nat) (nr_ents : Nat) :
    Int × LruArray × Option Nat :=
  if a.manualEvict then manual_find_free a key nr_ents
  else
    match sub_find_free a 0 key with
    | some (a', e) => (0, a', some e)
    | none =>
      match (a.subs 0).ls_lru with
      | [] => (0, a, none)
      | cold :: rest =>
        (0,
         { a with subs := fun i =>
            if i = 0 then
              { a.subs 0 with
                  ls_lru := rest ++ [cold]
                  le_key := fun j =>
                    if j = cold then key else (a.subs 0).le_key j }
            else a.subs i },
         some cold)

/-- C6: (1) an LRU array created with more than one sub-array has
LRU_FLAG_EVICT_MANUAL (bit value 1, i.e. bit 0) forced on by
lrua_array_alloc; (2) in manual-eviction mode, when no sub-array has a free
entry and no unallocated sub-array remains, lrua_find_free returns
-DER_BUSY with the array state unchanged and no entry claimed - nothing is
evicted, overwritten or re-keyed. -/
theorem lrua_manual_busy :
    (∀ nr_arrays flags, 1 < nr_arrays →
      Nat.testBit (lrua_array_alloc_flags nr_arrays flags) 0 = true) ∧
    (∀ (a : LruArray) (key nr_ents : Nat), a.manualEvict = true →
      (∀ s, (a.subs s).ls_free = []) → a.la_unused_sub = [] →
      lrua_find_free a key nr_ents = (-DER_BUSY, a, none)) := by
  constructor
  · intro nr_arrays flags h
    unfold lrua_array_alloc_flags LRU_FLAG_EVICT_MANUAL
    have : nr_arrays ≠ 1 := by omega
    simp [this, Nat.testBit_or]
  · intro a key nr_ents hman hfree hunused
    have hloop : ∀ l : List Nat, manual_find_free_loop a key l = none := by
      intro l
      induction l with
      | nil => rfl
      | cons s ss ih =>
        unfold manual_find_free_loop
        rw [show sub_find_free a s key = none from by
          unfold sub_find_free; rw [hfree s]]
        exact ih
    unfold lrua_find_free manual_find_free
    rw [hman, hloop a.la_free_sub, hunused]
    rfl

/-- Witness for lrua_manual_busy: a two-sub-array manual array whose free
and unused lists are exhausted answers busy, and sub_count = 2 forces the
manual flag even from flags = 0. -/
theorem lrua_manual_busy_witness :
    Nat.testBit (lrua_array_alloc_flags 2 0) 0 = true ∧
      lrua_find_free
          ⟨true, [0, 1], [], fun _ => ⟨[], [5], fun _ => 9, true⟩⟩ 3 4 =
        (-DER_BUSY, ⟨true, [0, 1], [], fun _ => ⟨[], [5], fun _ => 9, true⟩⟩,
         none) :=
  ⟨lrua_manual_busy.1 2 0 (by decide),
   lrua_manual_busy.2 ⟨true, [0, 1], [], fun _ => ⟨[], [5], fun _ => 9, true⟩⟩
     3 4 rfl (fun _ => rfl) rfl⟩

end Lru

namespace VosObj

/-- Numeric value of DER_TX_RESTART (daos_errno.h lives outside src; only
its identity matters to the claims). -/
def DER_TX_RESTART : Int := 2021

/-- The two iterator types vos_propagate_check is invoked with. -/
inductive IterType where
  | dkey
  | akey
deriving DecidableEq, Repr

/-- The file-scope C global bool vos_dkey_punch_propagate
(src/vos/vos_obj.c line 39); being a zero-initialised static-storage
variable it starts out false, and nothing under src sets it. -/
def vos_dkey_punch_propagate : Bool := false

/-- vos_propagate_check (src/vos/vos_obj.c lines 184-239): returns
-DER_TX_RESTART on a timestamp conflict; returns 0 for the dkey tree unless
the vos_dkey_punch_propagate global enables dkey-to-object propagation
(the switch case falls through to the akey case otherwise); else returns 1
when tree_is_empty reported an empty subtree (positive result), and
tree_is_empty's result (0 = non-empty, negative = error) otherwise. -/
def vos_propagate_check (typ : IterType) (conflict : Bool)
    (dkeyPropagate : Bool) (treeEmptyRc : Int) : Int :=
  if conflict then -DER_TX_RESTART
  else if typ = .dkey ∧ ¬dkeyPropagate then 0
  else if treeEmptyRc > 0 then 1
  else treeEmptyRc

/-- Result of key_punch: its return code and which levels were punched
(an incarnation-log punch appended by key_tree_punch). -/
structure KeyPunchResult where
  rc : Int
  akeysPunched : Bool
  dkeyPunched : Bool
deriving DecidableEq, Repr

/-- The punch_dkey tail of key_punch (src/vos/vos_obj.c lines 337-351):
key_tree_punch on the dkey (success abstracted), then - unless
VOS_OF_REPLAY_PC was set - the propagation check on the object's dkey
tree, whose result is the function's return value. -/
def key_punch_dkey_tail (replay conflictD dkeyProp : Bool)
    (dkeyEmptyRc : Int) (akeysPunched : Bool) : KeyPunchResult :=
  let rcD := if ¬replay then
      vos_propagate_check .dkey conflictD dkeyProp dkeyEmptyRc
    else 0
  ⟨rcD, akeysPunched, true⟩

/-- key_punch (src/vos/vos_obj.c lines 250-365) as its propagation control
flow, with the ilog and tree operations abstracted as succeeding:
akeysGiven is (akeys != NULL); replay is (flags AND VOS_OF_REPLAY_PC) != 0;
conflictA / conflictD are the vos_ts_set_check_conflict outcomes of the two
propagate checks; akeyEmptyRc / dkeyEmptyRc are the tree_is_empty outcomes
for the dkey's akey tree and the object's dkey tree.  When akeys are given
they are punched in the dkey's tree, and the punch moves to the dkey only
when the propagate check returns 1; without akeys the dkey is punched
directly.  A final rc of 1 makes vos_obj_punch punch the object. -/
def key_punch (akeysGiven replay conflictA conflictD dkeyProp : Bool)
    (akeyEmptyRc dkeyEmptyRc : Int) : KeyPunchResult :=
  if akeysGiven then
    let rcA := if ¬replay then
        vos_propagate_check .akey conflictA dkeyProp akeyEmptyRc
      else 0
    if rcA = 1 then
      key_punch_dkey_tail replay conflictD dkeyProp dkeyEmptyRc true
    else ⟨rcA, true, false⟩
  else key_punch_dkey_tail replay conflictD dkeyProp dkeyEmptyRc false

/-- The outcome of vos_obj_punch: return code and which levels were
punched. -/
structure PunchOutcome where
  rc : Int
  akeysPunched : Bool
  dkeyPunched : Bool
  objPunched : Bool
deriving DecidableEq, Repr

/-- The punch dispatch of vos_obj_punch (src/vos/vos_obj.c lines 518-530):
with a dkey the punch goes through key_punch, and the object itself is
punched exactly when key_punch returns a positive rc; without a dkey the
object is punched directly (obj_punch success abstracted). -/
def vos_obj_punch_model (dkeyGiven akeysGiven replay conflictA conflictD
    dkeyProp : Bool) (akeyEmptyRc dkeyEmptyRc : Int) : PunchOutcome :=
  if dkeyGiven then
    let r := key_punch akeysGiven replay conflictA conflictD dkeyProp
      akeyEmptyRc dkeyEmptyRc
    if r.rc > 0 then ⟨0, r.akeysPunched, r.dkeyPunched, true⟩
    else ⟨r.rc, r.akeysPunched, r.dkeyPunched, false⟩
  else ⟨0, false, false, true⟩

/-- C1 counterexample: an akey punch that empties both the akey tree and
the dkey tree, with VOS_OF_REPLAY_PC unset and no conflicts, propagates to
the dkey but NOT to the object, because dkey-to-object propagation is gated
by the vos_dkey_punch_propagate global, which is false by default. -/
theorem punch_no_object_propagation_by_default :
    (vos_obj_punch_model true true false false false
        vos_dkey_punch_propagate 1 1).dkeyPunched = true ∧
      (vos_obj_punch_model true true false false false
        vos_dkey_punch_propagate 1 1).objPunched = false := by
  decide

/-- C1 amended: for a key punch with VOS_OF_REPLAY_PC unset and no
timestamp conflicts, (1) an akey punch propagates to the dkey exactly when
the dkey's akey subtree became empty; (2) it propagates further to the
object exactly when additionally the object's dkey tree became empty AND
the vos_dkey_punch_propagate global is enabled; (3) a dkey punch propagates
to the object under the same gate; (4) with VOS_OF_REPLAY_PC set nothing
propagates. -/
theorem punch_propagation (dkeyProp : Bool) (akeyEmptyRc dkeyEmptyRc : Int)
    (ha : akeyEmptyRc = 0 ∨ akeyEmptyRc = 1)
    (hd : dkeyEmptyRc = 0 ∨ dkeyEmptyRc = 1) :
    ((vos_obj_punch_model true true false false false dkeyProp
        akeyEmptyRc dkeyEmptyRc).dkeyPunched = true ↔ akeyEmptyRc = 1) ∧
    ((vos_obj_punch_model true true false false false dkeyProp
        akeyEmptyRc dkeyEmptyRc).objPunched = true ↔
      akeyEmptyRc = 1 ∧ dkeyEmptyRc = 1 ∧ dkeyProp = true) ∧
    ((vos_obj_punch_model true false false false false dkeyProp
        akeyEmptyRc dkeyEmptyRc).objPunched = true ↔
      dkeyEmptyRc = 1 ∧ dkeyProp = true) ∧
    ((vos_obj_punch_model true true true false false dkeyProp
        akeyEmptyRc dkeyEmptyRc).dkeyPunched = false ∧
      (vos_obj_punch_model true true true false false dkeyProp
        akeyEmptyRc dkeyEmptyRc).objPunched = false) := by
  rcases ha with rfl | rfl <;> rcases hd with rfl | rfl <;>
    cases dkeyProp <;> decide

/-- Witness for punch_propagation with the propagation global enabled and
both subtrees empty. -/
theorem punch_propagation_witness :
    ((vos_obj_punch_model true true false false false true 1 1).dkeyPunched =
        true ↔ (1 : Int) = 1) ∧
      ((vos_obj_punch_model true true false false false true
          1 1).objPunched = true ↔
        (1 : Int) = 1 ∧ (1 : Int) = 1 ∧ true = true) ∧
      ((vos_obj_punch_model true false false false false true
          1 1).objPunched = true ↔ (1 : Int) = 1 ∧ true = true) ∧
      ((vos_obj_punch_model true true true false false true
          1 1).dkeyPunched = false ∧
        (vos_obj_punch_model true true true false false true
          1 1).objPunched = false) :=
  punch_propagation true 1 1 (Or.inr rfl) (Or.inr rfl)

end VosObj

namespace Mgmt

/-- Numeric value of the gurt errno DER_INVAL (d_errno.h lives outside src;
only its identity matters to the claims). -/
def DER_INVAL : Int := 1003

/-- The inputs of the FI_OFI_RXM_USE_SRX handling of dc_mgmt_net_cfg_init:
the server-provided SRX setting (srv_srx_set, -1 when the server did not
set it) and the client's environment value of FI_OFI_RXM_USE_SRX (its
decimal string modelled by the integer it denotes; none when unset). -/
structure SrxConfig where
  srv_srx_set : Int
  cli_env : Option Int
deriving DecidableEq, Repr

/-- The SRX step of dc_mgmt_net_cfg_init (part_007 lines 608-627): when the
server set SRX, the client environment is overwritten with the server's
value (d_setenv with overwrite = 1) and the function proceeds; only when
the server did not set it and the client environment has it does the
function fail with -DER_INVAL.  The result carries the resulting client
environment value on success.  OS-level failures of asprintf / d_setenv
are not modelled. -/
def dc_mgmt_net_cfg_init_srx (cfg : SrxConfig) : Except Int (Option Int) :=
  if cfg.srv_srx_set ≠ -1 then .ok (some cfg.srv_srx_set)
  else
    match cfg.cli_env with
    | some _ => .error (-DER_INVAL)
    | none => .ok none

/-- dc_mgmt_net_cfg_check (part_007 lines 692-707): rejects with -DER_INVAL
exactly when the server did not set SRX but the client environment has
it. -/
def dc_mgmt_net_cfg_check (cfg : SrxConfig) : Int :=
  if cfg.srv_srx_set = -1 ∧ cfg.cli_env.isSome then -DER_INVAL else 0

/-- C9 counterexample: with the server providing SRX = 1 and the client
environment holding the different value 0, dc_mgmt_net_cfg_init does NOT
fail: it overwrites the client environment with the server's value and
completes, and dc_mgmt_net_cfg_check accepts as well. -/
theorem srx_mismatch_not_rejected :
    dc_mgmt_net_cfg_init_srx ⟨1, some 0⟩ = .ok (some 1) ∧
      dc_mgmt_net_cfg_check ⟨1, some 0⟩ = 0 :=
  ⟨rfl, rfl⟩

/-- C9 amended: startup is rejected with -DER_INVAL exactly when the server
did NOT provide an SRX setting while the client environment sets
FI_OFI_RXM_USE_SRX; when the server provides a value, the client
environment is overwritten with the server's value and configuration
proceeds regardless of any previous client value. -/
theorem srx_config_behavior (cfg : SrxConfig) :
    (cfg.srv_srx_set ≠ -1 →
      dc_mgmt_net_cfg_init_srx cfg = .ok (some cfg.srv_srx_set)) ∧
    (cfg.srv_srx_set = -1 → ∀ v, cfg.cli_env = some v →
      dc_mgmt_net_cfg_init_srx cfg = .error (-DER_INVAL) ∧
        dc_mgmt_net_cfg_check cfg = -DER_INVAL) ∧
    (cfg.srv_srx_set = -1 → cfg.cli_env = none →
      dc_mgmt_net_cfg_init_srx cfg = .ok none ∧
        dc_mgmt_net_cfg_check cfg = 0) := by
  obtain ⟨srv, env⟩ := cfg
  refine ⟨fun h => ?_, fun h v hv => ?_, fun h hv => ?_⟩
  · simp [dc_mgmt_net_cfg_init_srx, h]
  · subst h hv
    constructor
    · simp [dc_mgmt_net_cfg_init_srx]
    · simp [dc_mgmt_net_cfg_check]
  · subst h hv
    constructor
    · simp [dc_mgmt_net_cfg_init_srx]
    · simp [dc_mgmt_net_cfg_check]

/-- Witness for srx_config_behavior: server unset, client set. -/
theorem srx_config_behavior_witness :
    dc_mgmt_net_cfg_init_srx ⟨-1, some 1⟩ = .error (-DER_INVAL) ∧
      dc_mgmt_net_cfg_check ⟨-1, some 1⟩ = -DER_INVAL :=
  (srx_config_behavior ⟨-1, some 1⟩).2.1 rfl 1 rfl

end Mgmt
